import Mathlib

/-!
Verification of the SelfieStick control sketch (src/SelfieStick.ino).

The sketch is a single-threaded Arduino program: a tilt sensor is read each
tick, passed through a low-pass filter with hysteresis (`isTilted`), and a
five-state timer-driven machine (`shotCycle`) drives three countdown LEDs and
a relay that fires the camera.  We embed the program shallowly:

* the file-scope constants keep their names and values;
* `unsigned long` time values are natural numbers reduced mod 2^32, and the
  wrap-around subtraction `now - timer` is `wsub`;
* `float` filter arithmetic is embedded over the rationals (the update
  `level += (raw - level) * LOW_PASS` and threshold comparisons are modelled
  exactly over the ordered field; rounding of the underlying IEEE arithmetic
  is abstracted away);
* the three file-scope mutable variables of the sequencer (`state`, the
  static `ledIndex` and `timer`) together with the output pins form the
  record `Machine`; LED output levels are a list indexed like LED_PINS;
* `digitalWrite(LED_PINS[i], v)` becomes `List.set i v`; the index values
  the program actually uses are tracked separately by `ledAccesses` so that
  in-bounds access is a provable statement rather than an assumption;
* the driver `loop` body becomes the step function `tick`, and `Reachable`
  is the set of machine states the driver can produce from power-on.
-/

set_option maxHeartbeats 1000000

namespace SelfieStick

/-- Pin constants from the source (kept for fidelity; the logic only uses the
length of LED_PINS). -/
def TILT_PIN : Nat := 12

/-- Relay pin constant from the source. -/
def RELAIS_PIN : Nat := 3

/-- The LED pin list from the source: three process-indicating LEDs. -/
def LED_PINS : List Nat := [4, 5, 6]

/-- Timing constant: milliseconds between successive LED changes. -/
def BLINK_SEQUENCE : Nat := 1500

/-- Timing constant: milliseconds from the last LED to the relay trigger. -/
def AFTER_LAST_LED : Nat := 500

/-- Timing constant: milliseconds the relay stays energized. -/
def RELAIS_TRIGGER_TIME : Nat := 20

/-- Timing constant: milliseconds of pause after a shot. -/
def PAUSE_AFTER_SHOT : Nat := 5000

/-- Filter constant LOW_PASS = 0.5f (exact in binary floating point). -/
def LOW_PASS : ℚ := 1/2

/-- Filter constant THRESHOLD_HIGH = 0.7f, taken at its decimal value. -/
def THRESHOLD_HIGH : ℚ := 7/10

/-- Filter constant THRESHOLD_LOW = 0.3f, taken at its decimal value. -/
def THRESHOLD_LOW : ℚ := 3/10

/-- The five states of the sequencer, as in the source `enum States`. -/
inductive States where
  | WAIT_FOR_LIFT
  | BLINK_LEDS
  | TRIGGER_SHOT
  | SHOT_DONE
  | PAUSE
deriving DecidableEq, Repr

/-- LED_COUNT = sizeof(LED_PINS)/sizeof(*LED_PINS), i.e. the list length. -/
def LED_COUNT : Nat := LED_PINS.length

/-- The modulus of the 32-bit `unsigned long` arithmetic of `millis()`. -/
def U32 : Nat := 2 ^ 32

/-- The expression `now - timer` of the source, computed in `unsigned long`
arithmetic: wrap-around subtraction mod 2^32. -/
def wsub (now timer : Nat) : Nat := (now % U32 + U32 - timer % U32) % U32

/-- The mutable program state the sequencer touches: the file-scope `state`,
the static locals `ledIndex` and `timer` of `shotCycle`, and the output
levels of the relay pin and of each LED pin (leds is indexed like
LED_PINS). -/
structure Machine where
  state : States
  ledIndex : Nat
  timer : Nat
  relay : Bool
  leds : List Bool
deriving DecidableEq, Repr

/-- `reset(newState)` from the source: write the relay pin LOW, loop over all
LED_COUNT LEDs writing each LOW, then assign `state = newState`.  The static
locals `ledIndex` and `timer` are not touched. -/
def reset (newState : States) (m : Machine) : Machine :=
  { m with
    relay := false
    leds := (List.range LED_COUNT).foldl (fun l i => l.set i false) m.leds
    state := newState }

/-- `shotCycle()` from the source, with the current `millis()` value passed in
as `now`.  In the WAIT_FOR_LIFT case the source sets `ledIndex = 0`, records
the time, then executes `digitalWrite(LED_PINS[ledIndex++], HIGH)`: LED 0 is
written and `ledIndex` ends at 1. -/
def shotCycle (now : Nat) (m : Machine) : Machine :=
  match m.state with
  | States.WAIT_FOR_LIFT =>
      { m with
        ledIndex := 1
        timer := now % U32
        leds := m.leds.set 0 true
        state := States.BLINK_LEDS }
  | States.BLINK_LEDS =>
      if BLINK_SEQUENCE ≤ wsub now m.timer then
        let m2 : Machine :=
          { m with
            timer := now % U32
            leds := m.leds.set m.ledIndex true
            ledIndex := m.ledIndex + 1 }
        if m2.ledIndex = LED_COUNT then { m2 with state := States.TRIGGER_SHOT } else m2
      else m
  | States.TRIGGER_SHOT =>
      if AFTER_LAST_LED ≤ wsub now m.timer then
        { m with
          timer := now % U32
          relay := true
          state := States.SHOT_DONE }
      else m
  | States.SHOT_DONE =>
      if RELAIS_TRIGGER_TIME ≤ wsub now m.timer then
        reset States.PAUSE { m with timer := now % U32 }
      else m
  | States.PAUSE =>
      if PAUSE_AFTER_SHOT ≤ wsub now m.timer then
        { m with state := States.WAIT_FOR_LIFT }
      else m

/-- The LED indices at which `shotCycle` evaluates `LED_PINS[...]` during one
call on machine `m` at time `now`, read off the source: index 0 in the
WAIT_FOR_LIFT case, and the current `ledIndex` in the BLINK_LEDS case when
the blink interval has elapsed.  No other case touches the LED array. -/
def ledAccesses (now : Nat) (m : Machine) : List Nat :=
  match m.state with
  | States.WAIT_FOR_LIFT => [0]
  | States.BLINK_LEDS =>
      if BLINK_SEQUENCE ≤ wsub now m.timer then [m.ledIndex] else []
  | _ => []

/-- The elapsed-time threshold the source compares `now - timer` against in
each waiting state; WAIT_FOR_LIFT acts immediately and has none. -/
def stateDuration : States → Option Nat
  | States.WAIT_FOR_LIFT => none
  | States.BLINK_LEDS => some BLINK_SEQUENCE
  | States.TRIGGER_SHOT => some AFTER_LAST_LED
  | States.SHOT_DONE => some RELAIS_TRIGGER_TIME
  | States.PAUSE => some PAUSE_AFTER_SHOT

/-- The machine right after `setup()`: state WAIT_FOR_LIFT, outputs LOW
(Arduino OUTPUT pins start LOW), static locals zero-initialized. -/
def initMachine : Machine :=
  { state := States.WAIT_FOR_LIFT
    ledIndex := 0
    timer := 0
    relay := false
    leds := List.replicate LED_COUNT false }

/-- One execution of the body of `loop()`: if the debounced tilt signal is
true, advance the sequencer; otherwise reset it, but only when it is not
already in WAIT_FOR_LIFT. -/
def tick (tilted : Bool) (now : Nat) (m : Machine) : Machine :=
  if tilted then shotCycle now m
  else if m.state ≠ States.WAIT_FOR_LIFT then reset States.WAIT_FOR_LIFT m
  else m

/-- The machine states the driver loop can produce from power-on. -/
inductive Reachable : Machine → Prop where
  | init : Reachable initMachine
  | step (m : Machine) (tilted : Bool) (now : Nat) :
      Reachable m → Reachable (tick tilted now m)

/-- Run `shotCycle` once per listed time, in order (the tilt signal held
true throughout). -/
def runTicks (times : List Nat) (m : Machine) : Machine :=
  times.foldl (fun m t => shotCycle t m) m

/-- The filter state of `isTilted`: the static locals `tilted` and
`tiltLevel` (level embedded over the rationals). -/
structure FilterState where
  tilted : Bool
  tiltLevel : ℚ
deriving DecidableEq, Repr

/-- `isTilted()` from the source, parameterized by the three filter constants
and with the `digitalRead` result passed in as `newTilt` (0 or 1): update
`tiltLevel += (newTilt - tiltLevel) * lowPass`, then flip `tilted` when not
tilted and the level has reached the high threshold, or when tilted and the
level has fallen to the low threshold. -/
def isTilted (lowPass thresholdHigh thresholdLow : ℚ) (newTilt : ℚ)
    (s : FilterState) : FilterState :=
  let tiltLevel := s.tiltLevel + (newTilt - s.tiltLevel) * lowPass
  if (s.tilted = false ∧ thresholdHigh ≤ tiltLevel) ∨
     (s.tilted = true ∧ tiltLevel ≤ thresholdLow) then
    { tilted := !s.tilted, tiltLevel := tiltLevel }
  else
    { s with tiltLevel := tiltLevel }

/-- Run the filter over a list of raw samples from its zero-initialized
start state (tilted = false, tiltLevel = 0). -/
def runFilter (lowPass thresholdHigh thresholdLow : ℚ) (samples : List ℚ) :
    FilterState :=
  samples.foldl (fun s r => isTilted lowPass thresholdHigh thresholdLow r s)
    { tilted := false, tiltLevel := 0 }

/-- The configuration constants the source fixes at file scope, gathered into
a record so that initialization-time behaviour can be stated for an arbitrary
configuration. -/
structure Config where
  ledCount : Nat
  blinkSequence : Nat
  afterLastLed : Nat
  relaisTriggerTime : Nat
  pauseAfterShot : Nat
  lowPass : ℚ
  thresholdHigh : ℚ
  thresholdLow : ℚ
deriving Repr

/-- `setup()` from the source, parameterized by the configuration constants.
The source body sets the pin modes and the start state and nothing else: it
contains no check of the configuration values, so it succeeds for every
configuration. -/
def setup (cfg : Config) : Option Machine :=
  some { state := States.WAIT_FOR_LIFT
         ledIndex := 0
         timer := 0
         relay := false
         leds := List.replicate cfg.ledCount false }

/-- The source configuration: the file-scope constant values. -/
def sourceConfig : Config :=
  { ledCount := LED_COUNT
    blinkSequence := BLINK_SEQUENCE
    afterLastLed := AFTER_LAST_LED
    relaisTriggerTime := RELAIS_TRIGGER_TIME
    pauseAfterShot := PAUSE_AFTER_SHOT
    lowPass := LOW_PASS
    thresholdHigh := THRESHOLD_HIGH
    thresholdLow := THRESHOLD_LOW }

/-- A configuration violating the documented constraints: zero LEDs and
lowThreshold ≥ highThreshold. -/
def badConfig : Config :=
  { ledCount := 0
    blinkSequence := BLINK_SEQUENCE
    afterLastLed := AFTER_LAST_LED
    relaisTriggerTime := RELAIS_TRIGGER_TIME
    pauseAfterShot := PAUSE_AFTER_SHOT
    lowPass := LOW_PASS
    thresholdHigh := 3/10
    thresholdLow := 7/10 }

/-- C3: with the source constants (3 LEDs, 1500 ms blink interval, 500 ms
delay, 20 ms pulse, 5000 ms pause), starting in WAIT_FOR_LIFT with tilt held
true: the tick at t=0 lights LED 0 and enters BLINK_LEDS with ledIndex 1; the
tick at t=1500 lights LED 1 (ledIndex 2); the tick at t=3000 lights LED 2
(ledIndex 3) and moves to TRIGGER_SHOT; at t=3500 the relay turns on and the
state becomes SHOT_DONE; at t=3520 the relay and all LEDs turn off and the
state becomes PAUSE; at t=8520 the state returns to WAIT_FOR_LIFT. -/
theorem scenario_trace :
    runTicks [0] initMachine =
      ⟨States.BLINK_LEDS, 1, 0, false, [true, false, false]⟩ ∧
    runTicks [0, 1500] initMachine =
      ⟨States.BLINK_LEDS, 2, 1500, false, [true, true, false]⟩ ∧
    runTicks [0, 1500, 3000] initMachine =
      ⟨States.TRIGGER_SHOT, 3, 3000, false, [true, true, true]⟩ ∧
    runTicks [0, 1500, 3000, 3500] initMachine =
      ⟨States.SHOT_DONE, 3, 3500, true, [true, true, true]⟩ ∧
    runTicks [0, 1500, 3000, 3500, 3520] initMachine =
      ⟨States.PAUSE, 3, 3520, false, [false, false, false]⟩ ∧
    (runTicks [0, 1500, 3000, 3500, 3520, 8520] initMachine).state =
      States.WAIT_FOR_LIFT := by
  decide

/-- Helper: both branches of `isTilted` store the same updated level. -/
theorem isTilted_tiltLevel (lp hi lo r : ℚ) (s : FilterState) :
    (isTilted lp hi lo r s).tiltLevel = s.tiltLevel + (r - s.tiltLevel) * lp := by
  simp only [isTilted]
  split <;> rfl

/-- Helper: the debounced output of one `isTilted` step, as an if-expression
over the updated level. -/
theorem isTilted_tilted (lp hi lo r : ℚ) (s : FilterState) :
    (isTilted lp hi lo r s).tilted =
      if (s.tilted = false ∧ hi ≤ s.tiltLevel + (r - s.tiltLevel) * lp) ∨
         (s.tilted = true ∧ s.tiltLevel + (r - s.tiltLevel) * lp ≤ lo) then
        !s.tilted
      else s.tilted := by
  simp only [isTilted]
  split <;> rfl

/-- C2: whenever one `isTilted` step changes the debounced output, a flip
from false to true happens only with the filtered level at or above the high
threshold, a flip from true to false only with the level at or below the low
threshold, and in either case the level is not strictly inside the
hysteresis band. -/
theorem tilt_hysteresis (lp hi lo r : ℚ) (s : FilterState)
    (h : (isTilted lp hi lo r s).tilted ≠ s.tilted) :
    (s.tilted = false → hi ≤ (isTilted lp hi lo r s).tiltLevel) ∧
    (s.tilted = true → (isTilted lp hi lo r s).tiltLevel ≤ lo) ∧
    ¬(lo < (isTilted lp hi lo r s).tiltLevel ∧
      (isTilted lp hi lo r s).tiltLevel < hi) := by
  rw [isTilted_tilted] at h
  rw [isTilted_tiltLevel]
  by_cases hc : (s.tilted = false ∧ hi ≤ s.tiltLevel + (r - s.tiltLevel) * lp) ∨
      (s.tilted = true ∧ s.tiltLevel + (r - s.tiltLevel) * lp ≤ lo)
  · rcases hc with ⟨hf, hge⟩ | ⟨ht, hle⟩
    · refine ⟨fun _ => hge, fun htr => ?_, fun hband => ?_⟩
      · rw [hf] at htr; exact absurd htr (by simp)
      · exact absurd hge (not_le.mpr hband.2)
    · refine ⟨fun hfa => ?_, fun _ => hle, fun hband => ?_⟩
      · rw [ht] at hfa; exact absurd hfa (by simp)
      · exact absurd hle (not_le.mpr hband.1)
  · rw [if_neg hc] at h
    exact absurd rfl h

/-- Witness for the hysteresis theorem: with no filtering (smoothing 1) a
single high sample from the start state flips the output, and the level 1
is at or above the high threshold 7/10. -/
theorem tilt_hysteresis_witness :
    (isTilted 1 (7/10) (3/10) 1 ⟨false, 0⟩).tilted ≠
      (⟨false, 0⟩ : FilterState).tilted ∧
    (((⟨false, 0⟩ : FilterState).tilted = false →
        (7:ℚ)/10 ≤ (isTilted 1 (7/10) (3/10) 1 ⟨false, 0⟩).tiltLevel) ∧
     ((⟨false, 0⟩ : FilterState).tilted = true →
        (isTilted 1 (7/10) (3/10) 1 ⟨false, 0⟩).tiltLevel ≤ 3/10) ∧
     ¬((3:ℚ)/10 < (isTilted 1 (7/10) (3/10) 1 ⟨false, 0⟩).tiltLevel ∧
       (isTilted 1 (7/10) (3/10) 1 ⟨false, 0⟩).tiltLevel < 7/10)) :=
  ⟨by norm_num [isTilted], tilt_hysteresis 1 (7/10) (3/10) 1 ⟨false, 0⟩
    (by norm_num [isTilted])⟩

/-- Helper: one exponential-smoothing step with a 0/1 sample and smoothing
factor in (0,1] keeps the level inside the unit interval. -/
theorem level_step_bounds (lp r lvl : ℚ) (h1 : 0 < lp) (h2 : lp ≤ 1)
    (hr : r = 0 ∨ r = 1) (hl0 : 0 ≤ lvl) (hl1 : lvl ≤ 1) :
    0 ≤ lvl + (r - lvl) * lp ∧ lvl + (r - lvl) * lp ≤ 1 := by
  rcases hr with rfl | rfl
  · constructor <;> nlinarith [mul_nonneg hl0 (sub_nonneg.mpr h2),
      mul_nonneg hl0 h1.le]
  · constructor <;> nlinarith [mul_nonneg (sub_nonneg.mpr hl1) h1.le,
      mul_nonneg (sub_nonneg.mpr hl1) (sub_nonneg.mpr h2)]

/-- Helper: folding `isTilted` over 0/1 samples from any level inside the
unit interval stays inside the unit interval. -/
theorem foldl_level_bounds (lp hi lo : ℚ) (h1 : 0 < lp) (h2 : lp ≤ 1) :
    ∀ (samples : List ℚ) (s : FilterState),
      (∀ r ∈ samples, r = 0 ∨ r = 1) →
      0 ≤ s.tiltLevel → s.tiltLevel ≤ 1 →
      0 ≤ (samples.foldl (fun s r => isTilted lp hi lo r s) s).tiltLevel ∧
      (samples.foldl (fun s r => isTilted lp hi lo r s) s).tiltLevel ≤ 1 := by
  intro samples
  induction samples with
  | nil => exact fun s _ h0 hl => ⟨h0, hl⟩
  | cons r rs ih =>
      intro s hmem h0 hl
      have hr : r = 0 ∨ r = 1 := hmem r (List.mem_cons_self r rs)
      have hstep := level_step_bounds lp r s.tiltLevel h1 h2 hr h0 hl
      have hnext := isTilted_tiltLevel lp hi lo r s
      simp only [List.foldl_cons]
      exact ih (isTilted lp hi lo r s)
        (fun x hx => hmem x (List.mem_cons_of_mem r hx))
        (by rw [hnext]; exact hstep.1) (by rw [hnext]; exact hstep.2)

/-- C7: for every sequence of 0/1 raw samples and smoothing factor in (0,1],
the filter level of `isTilted`, run from its zero start, stays in [0,1]
after every tick (the sample list is arbitrary, so this covers every
prefix of a run). -/
theorem filter_level_in_unit_interval (lp hi lo : ℚ) (samples : List ℚ)
    (h1 : 0 < lp) (h2 : lp ≤ 1) (hs : ∀ r ∈ samples, r = 0 ∨ r = 1) :
    0 ≤ (runFilter lp hi lo samples).tiltLevel ∧
    (runFilter lp hi lo samples).tiltLevel ≤ 1 :=
  foldl_level_bounds lp hi lo h1 h2 samples ⟨false, 0⟩ hs le_rfl (by norm_num)

/-- Witness for the filter-level bound: the source smoothing factor 1/2 on
the sample list [1, 0]. -/
theorem filter_level_in_unit_interval_witness :
    (0:ℚ) < 1/2 ∧ (1:ℚ)/2 ≤ 1 ∧ (∀ r ∈ [(1:ℚ), 0], r = 0 ∨ r = 1) ∧
    (0 ≤ (runFilter (1/2) THRESHOLD_HIGH THRESHOLD_LOW [1, 0]).tiltLevel ∧
     (runFilter (1/2) THRESHOLD_HIGH THRESHOLD_LOW [1, 0]).tiltLevel ≤ 1) := by
  have hmem : ∀ r ∈ [(1:ℚ), 0], r = 0 ∨ r = 1 := by
    intro r hr
    simp only [List.mem_cons, List.not_mem_nil, or_false] at hr
    rcases hr with rfl | rfl
    · right; rfl
    · left; rfl
  exact ⟨by norm_num, by norm_num, hmem,
    filter_level_in_unit_interval (1/2) THRESHOLD_HIGH THRESHOLD_LOW [1, 0]
      (by norm_num) (by norm_num) hmem⟩

/-- C4: `reset(target)` de-energizes the relay, writes every LED low, and
sets the state to the target, from any prior machine state. -/
theorem reset_clears_outputs (t : States) (m : Machine) (i : Nat)
    (h : i < LED_COUNT) :
    (reset t m).relay = false ∧ (reset t m).state = t ∧
    (reset t m).leds.getD i false = false := by
  refine ⟨rfl, rfl, ?_⟩
  have h3 : i < 3 := h
  obtain ⟨st, li, ti, re, l⟩ := m
  interval_cases i <;>
    rcases l with _ | ⟨a, _ | ⟨b, _ | ⟨c, tl⟩⟩⟩ <;> rfl

/-- Witness for the reset theorem: resetting to WAIT_FOR_LIFT from a machine
in SHOT_DONE with the relay energized and every LED lit. -/
theorem reset_clears_outputs_witness :
    1 < LED_COUNT ∧
    ((reset States.WAIT_FOR_LIFT
        ⟨States.SHOT_DONE, 3, 100, true, [true, true, true]⟩).relay = false ∧
     (reset States.WAIT_FOR_LIFT
        ⟨States.SHOT_DONE, 3, 100, true, [true, true, true]⟩).state =
       States.WAIT_FOR_LIFT ∧
     (reset States.WAIT_FOR_LIFT
        ⟨States.SHOT_DONE, 3, 100, true, [true, true, true]⟩).leds.getD 1 false =
       false) :=
  ⟨by decide, reset_clears_outputs States.WAIT_FOR_LIFT
    ⟨States.SHOT_DONE, 3, 100, true, [true, true, true]⟩ 1 (by decide)⟩

/-- C8: `reset(WAIT_FOR_LIFT)` is idempotent: a second call changes nothing
about the machine. -/
theorem reset_idempotent (m : Machine) :
    reset States.WAIT_FOR_LIFT (reset States.WAIT_FOR_LIFT m) =
      reset States.WAIT_FOR_LIFT m := by
  obtain ⟨st, li, ti, re, l⟩ := m
  rcases l with _ | ⟨a, _ | ⟨b, _ | ⟨c, tl⟩⟩⟩ <;> rfl

/-- C6: in any waiting state, when the elapsed time `now - timer` (in the
source's unsigned arithmetic) is still below that state's threshold,
`shotCycle` leaves the whole machine unchanged: state, ledIndex, timer and
every output. -/
theorem advance_noop_before_duration (m : Machine) (now d : Nat)
    (hd : stateDuration m.state = some d) (hlt : wsub now m.timer < d) :
    shotCycle now m = m := by
  obtain ⟨st, li, ti, re, l⟩ := m
  cases st with
  | WAIT_FOR_LIFT => exact absurd hd (by simp [stateDuration])
  | BLINK_LEDS =>
      obtain rfl : d = BLINK_SEQUENCE := by simpa [stateDuration] using hd.symm
      simp only [shotCycle]
      rw [if_neg (Nat.not_le.mpr hlt)]
  | TRIGGER_SHOT =>
      obtain rfl : d = AFTER_LAST_LED := by simpa [stateDuration] using hd.symm
      simp only [shotCycle]
      rw [if_neg (Nat.not_le.mpr hlt)]
  | SHOT_DONE =>
      obtain rfl : d = RELAIS_TRIGGER_TIME := by simpa [stateDuration] using hd.symm
      simp only [shotCycle]
      rw [if_neg (Nat.not_le.mpr hlt)]
  | PAUSE =>
      obtain rfl : d = PAUSE_AFTER_SHOT := by simpa [stateDuration] using hd.symm
      simp only [shotCycle]
      rw [if_neg (Nat.not_le.mpr hlt)]

/-- Witness for the no-op theorem: in BLINK_LEDS with timer 0, a tick at
time 10 (elapsed 10 < 1500) changes nothing. -/
theorem advance_noop_before_duration_witness :
    stateDuration
        (Machine.mk States.BLINK_LEDS 1 0 false [true, false, false]).state =
      some 1500 ∧
    wsub 10 (Machine.mk States.BLINK_LEDS 1 0 false [true, false, false]).timer
      < 1500 ∧
    shotCycle 10 (Machine.mk States.BLINK_LEDS 1 0 false [true, false, false]) =
      Machine.mk States.BLINK_LEDS 1 0 false [true, false, false] :=
  ⟨by decide, by decide,
   advance_noop_before_duration
     (Machine.mk States.BLINK_LEDS 1 0 false [true, false, false]) 10 1500
     (by decide) (by decide)⟩

/-- C9: in every machine state the driver loop can reach from power-on, the
relay output is high only while the sequencer is in SHOT_DONE; it is never
energized in any other state. -/
theorem relay_high_only_in_shot_done (m : Machine) (h : Reachable m) :
    m.relay = true → m.state = States.SHOT_DONE := by
  induction h with
  | init => intro hr; exact absurd hr (by decide)
  | step m tilted now hm ih =>
      obtain ⟨st, li, ti, re, l⟩ := m
      cases tilted <;> cases st <;>
        simp only [tick, shotCycle, reset] <;>
        (repeat' split) <;>
        simp_all

/-- Witness for the relay invariant: four ticks with tilt held true reach
SHOT_DONE with the relay energized. -/
theorem relay_high_only_in_shot_done_witness :
    (tick true 3500 (tick true 3000 (tick true 1500 (tick true 0
      initMachine)))).state = States.SHOT_DONE :=
  relay_high_only_in_shot_done _
    (Reachable.step _ true 3500 (Reachable.step _ true 3000
      (Reachable.step _ true 1500 (Reachable.step _ true 0 Reachable.init))))
    (by decide)

/-- Helper: in every reachable machine state, BLINK_LEDS implies the stored
ledIndex is below LED_COUNT (the case is left exactly when it reaches
LED_COUNT). -/
theorem reachable_ledIndex_lt (m : Machine) (h : Reachable m) :
    m.state = States.BLINK_LEDS → m.ledIndex < LED_COUNT := by
  induction h with
  | init => intro hr; exact absurd hr (by decide)
  | step m tilted now hm ih =>
      obtain ⟨st, li, ti, re, l⟩ := m
      cases tilted <;> cases st <;>
        simp only [tick, shotCycle, reset] <;>
        (repeat' split) <;>
        (try simp_all [LED_COUNT, LED_PINS]) <;>
        omega

/-- C10: every LED-array index `shotCycle` evaluates during a tick on a
reachable machine state is strictly below LED_COUNT: the access
LED_PINS[ledIndex] is always in bounds. -/
theorem led_accesses_in_bounds (m : Machine) (now : Nat) (h : Reachable m) :
    ∀ i ∈ ledAccesses now m, i < LED_COUNT := by
  intro i hi
  have hb := reachable_ledIndex_lt m h
  obtain ⟨st, li, ti, re, l⟩ := m
  cases st <;> simp only [ledAccesses] at hi
  case WAIT_FOR_LIFT =>
    simp only [List.mem_singleton] at hi
    subst hi
    decide
  case BLINK_LEDS =>
    rcases Nat.lt_or_ge (wsub now ti) BLINK_SEQUENCE with hlt | hge
    · rw [if_neg (Nat.not_le.mpr hlt)] at hi
      exact absurd hi (List.not_mem_nil i)
    · rw [if_pos hge] at hi
      simp only [List.mem_singleton] at hi
      subst hi
      exact hb rfl
  case TRIGGER_SHOT => exact absurd hi (List.not_mem_nil i)
  case SHOT_DONE => exact absurd hi (List.not_mem_nil i)
  case PAUSE => exact absurd hi (List.not_mem_nil i)

/-- Witness for the access-bound theorem: the very first tick from power-on
accesses index 0, which is below LED_COUNT = 3. -/
theorem led_accesses_in_bounds_witness :
    0 ∈ ledAccesses 0 initMachine ∧ 0 < LED_COUNT :=
  ⟨by decide, led_accesses_in_bounds initMachine 0 Reachable.init 0 (by decide)⟩

/-- C1 counterexample: with the source constants and the tilt signal held
true, ticks arriving at every transition boundary take the machine from
WAIT_FOR_LIFT back to WAIT_FOR_LIFT with all outputs off at elapsed time
8520 ms — it is still in PAUSE at 8519 ms — while the claimed total
LED_COUNT*BLINK_SEQUENCE + AFTER_LAST_LED + RELAIS_TRIGGER_TIME +
PAUSE_AFTER_SHOT is 10020 ms, so the claimed round-trip time is wrong. -/
theorem round_trip_time_cex :
    (runTicks [0, 1500, 3000, 3500, 3520, 8520] initMachine).state =
      States.WAIT_FOR_LIFT ∧
    (runTicks [0, 1500, 3000, 3500, 3520, 8520] initMachine).relay = false ∧
    (runTicks [0, 1500, 3000, 3500, 3520, 8520] initMachine).leds =
      List.replicate LED_COUNT false ∧
    (runTicks [0, 1500, 3000, 3500, 3520, 8519] initMachine).state =
      States.PAUSE ∧
    8520 ≠ LED_COUNT * BLINK_SEQUENCE + AFTER_LAST_LED + RELAIS_TRIGGER_TIME +
      PAUSE_AFTER_SHOT := by
  decide

/-- C1 amended: the full cycle with tilt held true and ticks at every
transition boundary returns exactly to WAIT_FOR_LIFT with the relay and all
LEDs off, and the total elapsed time from the WAIT_FOR_LIFT tick back to
WAIT_FOR_LIFT is (LED_COUNT - 1)*BLINK_SEQUENCE + AFTER_LAST_LED +
RELAIS_TRIGGER_TIME + PAUSE_AFTER_SHOT: the first LED lights in the same
tick that leaves WAIT_FOR_LIFT, so only LED_COUNT - 1 blink intervals
elapse.  One tick earlier the machine is still in PAUSE, so the return
happens exactly at that time. -/
theorem round_trip_time_amended :
    (runTicks [0, BLINK_SEQUENCE, (LED_COUNT - 1) * BLINK_SEQUENCE,
        (LED_COUNT - 1) * BLINK_SEQUENCE + AFTER_LAST_LED,
        (LED_COUNT - 1) * BLINK_SEQUENCE + AFTER_LAST_LED + RELAIS_TRIGGER_TIME,
        (LED_COUNT - 1) * BLINK_SEQUENCE + AFTER_LAST_LED + RELAIS_TRIGGER_TIME +
          PAUSE_AFTER_SHOT] initMachine).state = States.WAIT_FOR_LIFT ∧
    (runTicks [0, BLINK_SEQUENCE, (LED_COUNT - 1) * BLINK_SEQUENCE,
        (LED_COUNT - 1) * BLINK_SEQUENCE + AFTER_LAST_LED,
        (LED_COUNT - 1) * BLINK_SEQUENCE + AFTER_LAST_LED + RELAIS_TRIGGER_TIME,
        (LED_COUNT - 1) * BLINK_SEQUENCE + AFTER_LAST_LED + RELAIS_TRIGGER_TIME +
          PAUSE_AFTER_SHOT] initMachine).relay = false ∧
    (runTicks [0, BLINK_SEQUENCE, (LED_COUNT - 1) * BLINK_SEQUENCE,
        (LED_COUNT - 1) * BLINK_SEQUENCE + AFTER_LAST_LED,
        (LED_COUNT - 1) * BLINK_SEQUENCE + AFTER_LAST_LED + RELAIS_TRIGGER_TIME,
        (LED_COUNT - 1) * BLINK_SEQUENCE + AFTER_LAST_LED + RELAIS_TRIGGER_TIME +
          PAUSE_AFTER_SHOT] initMachine).leds = List.replicate LED_COUNT false ∧
    (runTicks [0, BLINK_SEQUENCE, (LED_COUNT - 1) * BLINK_SEQUENCE,
        (LED_COUNT - 1) * BLINK_SEQUENCE + AFTER_LAST_LED,
        (LED_COUNT - 1) * BLINK_SEQUENCE + AFTER_LAST_LED + RELAIS_TRIGGER_TIME,
        (LED_COUNT - 1) * BLINK_SEQUENCE + AFTER_LAST_LED + RELAIS_TRIGGER_TIME +
          PAUSE_AFTER_SHOT - 1] initMachine).state = States.PAUSE := by
  decide

/-- C5 counterexample: `setup` succeeds on a configuration that violates the
documented constraints (zero LEDs, low threshold 7/10 above high threshold
3/10): nothing is rejected at initialization time. -/
theorem setup_accepts_bad_config :
    (setup badConfig).isSome = true ∧
    badConfig.thresholdHigh ≤ badConfig.thresholdLow ∧
    badConfig.ledCount = 0 := by
  refine ⟨rfl, ?_, rfl⟩
  norm_num [badConfig]

/-- C5 amended: `setup` performs no configuration validation at all — it
succeeds for every configuration, constraint-violating ones included. -/
theorem setup_always_succeeds (cfg : Config) : (setup cfg).isSome = true := rfl

end SelfieStick
